import Mathlib

/-!
Formal model of the sample_watermark_eraser training core, verified against
its natural-language specification.  Source files embedded here:
`src/data/trans.py` (the PadResize geometry transform) and
`src/train_GAN.py` (the adversarial training loop, logging, distributed
evaluation and checkpointing).  Images are modelled by their dimensions,
scalar tensors by rationals, and networks, losses and optimizer steps as
abstract functions, which mirrors how the spec treats them (opaque
differentiable functions).
-/

namespace SampleWatermarkEraser

/-! ## Geometry Transform — src/data/trans.py, class PadResize

`PadResize.__init__` stores the target square size `w` and the `make_pad`
flag (the interpolation kernel is also stored in the source; it has no
effect on image dimensions, which is all this model tracks). -/

/-- Dimensions of a PIL image: `img.size` returns `(w, h)`. -/
structure ImgSize where
  w : Nat
  h : Nat
deriving DecidableEq, Repr

/-- The configuration stored by `PadResize.__init__` (target size `w`,
padding switch `make_pad`). -/
structure PadResize where
  w : Nat
  make_pad : Bool
deriving DecidableEq, Repr

/-- Dimension semantics of `torchvision.transforms.functional.pad` with
argument list `[left, top, right, bottom]`. -/
def padImage (img : ImgSize) (left top right bottom : Nat) : ImgSize :=
  ⟨img.w + left + right, img.h + top + bottom⟩

/-- The scaled height `hs = int((h/w)*self.w)` computed on line 13 of
`src/data/trans.py`: in exact arithmetic `int((h/w)*S)` truncates the
nonnegative rational `h*S/w`, which is Nat floor division. -/
def scaledHeight (t : PadResize) (img : ImgSize) : Nat :=
  img.h * t.w / img.w

/-- Dimension semantics of `PadResize.__call__` (src/data/trans.py lines
11-18): read `(w, h) = img.size`, compute `hs`, resize to `[hs, self.w]`,
and when `make_pad` holds and `hs < self.w` pad with
`[0, h_pad, 0, (self.w-hs)-h_pad]` where `h_pad = (self.w-hs)//2`. -/
def PadResize.call (t : PadResize) (img : ImgSize) : ImgSize :=
  let hs := scaledHeight t img
  let resized : ImgSize := ⟨t.w, hs⟩
  if t.make_pad = true ∧ hs < t.w then
    let h_pad := (t.w - hs) / 2
    padImage resized 0 h_pad 0 ((t.w - hs) - h_pad)
  else
    resized

/-- Helper: closed-form evaluation of `PadResize.call` — in the padding
branch the output height is exactly the target size. -/
lemma call_closed_form (t : PadResize) (img : ImgSize) :
    t.call img =
      (if t.make_pad = true ∧ scaledHeight t img < t.w then
        ⟨t.w, t.w⟩
      else ⟨t.w, scaledHeight t img⟩) := by
  by_cases hc : t.make_pad = true ∧ scaledHeight t img < t.w
  · have hlt := hc.2
    simp only [PadResize.call, padImage, hc, and_self, if_true, ImgSize.mk.injEq]
    revert hlt
    generalize scaledHeight t img = n
    intro hlt
    omega
  · simp [PadResize.call, hc]

/-- C5: for every input image of width `w > 0`, the transform resizes to
height `hs = round_down((h/w)*S)` and width `S`; when padding is enabled and
`hs < S` it pads the vertical axis with top `(S - hs) // 2` and bottom the
remainder, so the padded height is exactly `S`; when `hs >= S` (or padding
is disabled) the result is the unpadded `⟨S, hs⟩`, a pass-through, not an
error. -/
theorem C5_resize_pad_contract (t : PadResize) (img : ImgSize) (h : 0 < img.w) :
    t.call img =
      (if t.make_pad = true ∧ scaledHeight t img < t.w then
        padImage ⟨t.w, scaledHeight t img⟩ 0 ((t.w - scaledHeight t img) / 2) 0
          ((t.w - scaledHeight t img) - (t.w - scaledHeight t img) / 2)
      else ⟨t.w, scaledHeight t img⟩) ∧
    t.call img =
      (if t.make_pad = true ∧ scaledHeight t img < t.w then
        ⟨t.w, t.w⟩
      else ⟨t.w, scaledHeight t img⟩) := by
  exact ⟨rfl, call_closed_form t img⟩

/-- Witness for C5 at the spec's parity example: `S = 800`, input `w = 800`,
`h = 799`, hence `hs = 799`: top pad `0`, bottom pad `1`, final height 800. -/
theorem C5_resize_pad_contract_witness :
    0 < (⟨800, 799⟩ : ImgSize).w ∧
    ((⟨800, true⟩ : PadResize).call ⟨800, 799⟩ =
      (if (⟨800, true⟩ : PadResize).make_pad = true ∧
          scaledHeight ⟨800, true⟩ ⟨800, 799⟩ < (⟨800, true⟩ : PadResize).w then
        padImage ⟨(⟨800, true⟩ : PadResize).w, scaledHeight ⟨800, true⟩ ⟨800, 799⟩⟩ 0
          (((⟨800, true⟩ : PadResize).w - scaledHeight ⟨800, true⟩ ⟨800, 799⟩) / 2) 0
          (((⟨800, true⟩ : PadResize).w - scaledHeight ⟨800, true⟩ ⟨800, 799⟩) -
            ((⟨800, true⟩ : PadResize).w - scaledHeight ⟨800, true⟩ ⟨800, 799⟩) / 2)
      else ⟨(⟨800, true⟩ : PadResize).w, scaledHeight ⟨800, true⟩ ⟨800, 799⟩⟩) ∧
    (⟨800, true⟩ : PadResize).call ⟨800, 799⟩ =
      (if (⟨800, true⟩ : PadResize).make_pad = true ∧
          scaledHeight ⟨800, true⟩ ⟨800, 799⟩ < (⟨800, true⟩ : PadResize).w then
        ⟨(⟨800, true⟩ : PadResize).w, (⟨800, true⟩ : PadResize).w⟩
      else ⟨(⟨800, true⟩ : PadResize).w, scaledHeight ⟨800, true⟩ ⟨800, 799⟩⟩)) :=
  ⟨by decide, C5_resize_pad_contract ⟨800, true⟩ ⟨800, 799⟩ (by decide)⟩

/-- C7 counterexample: the input `w = 800 = S`, `h = 400` has width equal to
the target size, yet with padding enabled the transform pads the height up
to 800, so the image is NOT returned unchanged in size. -/
theorem C7_counterexample :
    (⟨800, true⟩ : PadResize).call ⟨800, 400⟩ ≠ (⟨800, 400⟩ : ImgSize) := by
  decide

/-- C7 (amended): for an input whose width equals the target size `S > 0`,
whenever its height is at least `S` (in particular for an already-square
input) or padding is disabled, the transform returns the image unchanged in
size and applies no padding. -/
theorem C7_square_passthrough (t : PadResize) (img : ImgSize)
    (hw : img.w = t.w) (h0 : 0 < t.w) (hcase : t.w ≤ img.h ∨ t.make_pad = false) :
    t.call img = img := by
  have hhs : scaledHeight t img = img.h := by
    simp only [scaledHeight]
    rw [hw]
    exact Nat.mul_div_cancel _ h0
  have hcond : ¬(t.make_pad = true ∧ scaledHeight t img < t.w) := by
    rw [hhs]
    rcases hcase with hge | hpad
    · exact fun hc => absurd hc.2 (Nat.not_lt.mpr hge)
    · exact fun hc => by rw [hpad] at hc; exact Bool.false_ne_true hc.1
  simp only [PadResize.call]
  rw [if_neg hcond, hhs, ← hw]

/-- Witness for C7 (amended) on the square input `w = h = S = 800`. -/
theorem C7_square_passthrough_witness :
    ((⟨800, 800⟩ : ImgSize).w = (⟨800, true⟩ : PadResize).w ∧
     0 < (⟨800, true⟩ : PadResize).w ∧
     ((⟨800, true⟩ : PadResize).w ≤ (⟨800, 800⟩ : ImgSize).h ∨
       (⟨800, true⟩ : PadResize).make_pad = false)) ∧
    (⟨800, true⟩ : PadResize).call ⟨800, 800⟩ = ⟨800, 800⟩ :=
  ⟨⟨by decide, by decide, by decide⟩,
    C7_square_passthrough ⟨800, true⟩ ⟨800, 800⟩ (by decide) (by decide)
      (Or.inl (by decide))⟩

/-- C10: for every input with positive width the output width is exactly the
target size `S`, and the output height is `S` when padding is enabled and
`hs < S`, and `hs` otherwise. -/
theorem C10_output_dims (t : PadResize) (img : ImgSize) (h : 0 < img.w) :
    (t.call img).w = t.w ∧
    (t.call img).h =
      (if t.make_pad = true ∧ scaledHeight t img < t.w then t.w
       else scaledHeight t img) := by
  have h2 := call_closed_form t img
  by_cases hc : t.make_pad = true ∧ scaledHeight t img < t.w
  · rw [h2]; simp [hc]
  · rw [h2]; simp [hc]

/-- Witness for C10 on a landscape input: spec example `w=1000, h=500,
S=800` gives `hs = 400`, padded height `800`, width `800`. -/
theorem C10_output_dims_witness :
    0 < (⟨1000, 500⟩ : ImgSize).w ∧
    (((⟨800, true⟩ : PadResize).call ⟨1000, 500⟩).w = (⟨800, true⟩ : PadResize).w ∧
     ((⟨800, true⟩ : PadResize).call ⟨1000, 500⟩).h =
       (if (⟨800, true⟩ : PadResize).make_pad = true ∧
           scaledHeight ⟨800, true⟩ ⟨1000, 500⟩ < (⟨800, true⟩ : PadResize).w then
         (⟨800, true⟩ : PadResize).w
        else scaledHeight ⟨800, true⟩ ⟨1000, 500⟩)) :=
  ⟨by decide, C10_output_dims ⟨800, true⟩ ⟨1000, 500⟩ (by decide)⟩

/-! ## Adversarial training step — src/train_GAN.py, Trainer.train lines 91-136

Batches and scores are modelled as rational scalars, the two networks as
abstract functions of their parameter vector and input, the two loss
criteria (`nn.MSELoss` as `criterion_gan`, `nn.SmoothL1Loss` as
`criterion`) as abstract binary functions, and each optimizer step
(`backward` followed by `optimizer.step()`) as an abstract update of the
parameters it owns: `optimizer = AdamW(net_G.parameters())` holds only the
generator parameters and `optimizer_D = AdamW(net_D.parameters())` only the
discriminator parameters, which the embedding reflects by letting each
update touch only its own parameter vector. -/

/-- A scalar tensor together with its autograd tracking flag; `detach`
(line 128) keeps the value and drops gradient tracking. -/
structure Tensor where
  val : ℚ
  requiresGrad : Bool
deriving DecidableEq, Repr

/-- `Tensor.detach`: same value, gradient tracking off. -/
def Tensor.detach (t : Tensor) : Tensor := ⟨t.val, false⟩

/-- The label `valid = torch.tensor(1.)` (line 91). -/
def validLabel : ℚ := 1

/-- The label `fake = torch.tensor(0.)` (line 92). -/
def fakeLabel : ℚ := 0

/-- The abstract collaborators of Trainer.train: the networks, the two loss
criteria, the reconstruction weight `alpha`, and the two optimizer updates. -/
structure GanModel where
  netG : List ℚ → ℚ → ℚ
  netD : List ℚ → ℚ → ℚ
  criterion : ℚ → ℚ → ℚ
  criterion_gan : ℚ → ℚ → ℚ
  alpha : ℚ
  optStepG : List ℚ → ℚ → List ℚ
  optStepD : List ℚ → ℚ → List ℚ

/-- Mutable per-step state of Trainer.train: parameters of both networks,
their train/eval and requires_grad mode flags, and the two running-loss
accumulators. -/
structure StepState where
  gParams : List ℚ
  dParams : List ℚ
  gTraining : Bool
  gRequiresGrad : Bool
  dTraining : Bool
  dRequiresGrad : Bool
  loss_sum_G : ℚ
  loss_sum_D : ℚ

/-- Output of one phase: the state after it, the tensor `fake_A` produced
by the generator phase (reused by the discriminator phase), the phase loss,
and the list of inputs the discriminator was forward-passed on during the
phase, in program order. -/
structure PhaseOut where
  state : StepState
  fake_A : Tensor
  loss : ℚ
  dInputs : List Tensor

/-- Generator phase, src/train_GAN.py lines 102-117: set G to
train/requires_grad and D to eval/frozen, zero G grads, compute
`fake_A = net_G(img)`, `fake_B = net_G(fake_mark)`,
`pred_fake_A = net_D(fake_A)`,
`loss = criterion_gan(pred_fake_A, valid) + alpha*criterion(img_clean, fake_B)`,
backward + optimizer.step() on the generator parameters only, and
accumulate into `loss_sum_G`. -/
def generatorPhase (M : GanModel) (img img_clean fake_mark : ℚ)
    (s : StepState) : PhaseOut :=
  let s1 : StepState :=
    { s with gTraining := true, gRequiresGrad := true,
             dTraining := false, dRequiresGrad := false }
  let fake_A : Tensor := ⟨M.netG s1.gParams img, s1.gRequiresGrad⟩
  let fake_B : Tensor := ⟨M.netG s1.gParams fake_mark, s1.gRequiresGrad⟩
  let pred_fake_A := M.netD s1.dParams fake_A.val
  let loss := M.criterion_gan pred_fake_A validLabel
      + M.alpha * M.criterion img_clean fake_B.val
  let s2 : StepState :=
    { s1 with gParams := M.optStepG s1.gParams loss,
              loss_sum_G := s1.loss_sum_G + loss }
  { state := s2, fake_A := fake_A, loss := loss, dInputs := [fake_A] }

/-- Discriminator phase, src/train_GAN.py lines 120-136: set G to
eval/frozen and D to train/requires_grad, zero D grads, compute
`pred_real = net_D(img_clean)`, `pred_img_fake = net_D(img)`,
`pred_fake = net_D(fake_A.detach())`,
`loss = (criterion_gan(pred_real, valid) + criterion_gan(pred_fake, fake)
+ criterion_gan(pred_img_fake, fake))/2`, backward + optimizer_D.step() on
the discriminator parameters only, and accumulate into `loss_sum_D`.
The data batches `img_clean` and `img` enter the discriminator as plain
data tensors (no gradient tracking). -/
def discriminatorPhase (M : GanModel) (img img_clean : ℚ) (fake_A : Tensor)
    (s : StepState) : PhaseOut :=
  let s1 : StepState :=
    { s with gTraining := false, gRequiresGrad := false,
             dTraining := true, dRequiresGrad := true }
  let pred_real := M.netD s1.dParams img_clean
  let pred_img_fake := M.netD s1.dParams img
  let pred_fake := M.netD s1.dParams (Tensor.detach fake_A).val
  let loss := (M.criterion_gan pred_real validLabel
      + M.criterion_gan pred_fake fakeLabel
      + M.criterion_gan pred_img_fake fakeLabel) / 2
  let s2 : StepState :=
    { s1 with dParams := M.optStepD s1.dParams loss,
              loss_sum_D := s1.loss_sum_D + loss }
  { state := s2, fake_A := fake_A, loss := loss,
    dInputs := [⟨img_clean, false⟩, ⟨img, false⟩, Tensor.detach fake_A] }

/-- One full training step (lines 101-136): the generator phase followed by
the discriminator phase, which reuses the `fake_A` tensor produced by the
generator phase.  Returns the final state and both phase outputs. -/
def trainStep (M : GanModel) (img img_clean fake_mark : ℚ)
    (s : StepState) : StepState × PhaseOut × PhaseOut :=
  let gOut := generatorPhase M img img_clean fake_mark s
  let dOut := discriminatorPhase M img img_clean gOut.fake_A gOut.state
  (dOut.state, gOut, dOut)

/-- C1: in the generator phase of every training step, the generator loss
equals `adversarial_loss(pred_fake_A, REAL_LABEL) + alpha *
reconstruction_loss(clean_reference, fake_B)` with
`pred_fake_A = net_D(net_G(img))` and `fake_B = net_G(fake_mark)`, and the
discriminator is forward-passed exactly once, on `fake_A` only — never on
`fake_B`. -/
theorem C1_generator_loss_composition (M : GanModel)
    (img img_clean fake_mark : ℚ) (s : StepState) :
    (trainStep M img img_clean fake_mark s).2.1.loss =
      M.criterion_gan (M.netD s.dParams (M.netG s.gParams img)) 1
        + M.alpha * M.criterion img_clean (M.netG s.gParams fake_mark) ∧
    (trainStep M img img_clean fake_mark s).2.1.dInputs =
      [⟨M.netG s.gParams img, true⟩] := by
  exact ⟨rfl, rfl⟩

/-- C2: in the discriminator phase of every training step, the discriminator
loss equals the sum of the adversarial losses of its score on the clean
batch against REAL, its score on the detached `fake_A` against FAKE, and
its score on the real watermarked input against FAKE, divided by exactly 2;
the discriminator parameters used are those from before the step (unchanged
by the generator phase), and the three discriminator forward passes are on
the clean batch, the watermarked input batch, and `fake_A` with gradient
tracking detached (while `fake_A` itself is gradient-tracked). -/
theorem C2_discriminator_loss_composition (M : GanModel)
    (img img_clean fake_mark : ℚ) (s : StepState) :
    (trainStep M img img_clean fake_mark s).2.2.loss =
      (M.criterion_gan (M.netD s.dParams img_clean) 1
        + M.criterion_gan (M.netD s.dParams (M.netG s.gParams img)) 0
        + M.criterion_gan (M.netD s.dParams img) 0) / 2 ∧
    (trainStep M img img_clean fake_mark s).2.2.dInputs =
      [⟨img_clean, false⟩, ⟨img, false⟩,
        Tensor.detach (trainStep M img img_clean fake_mark s).2.1.fake_A] ∧
    (trainStep M img img_clean fake_mark s).2.1.fake_A.requiresGrad = true := by
  exact ⟨rfl, rfl, rfl⟩

/-- C3: per phase, exactly one network is trainable and the frozen one's
parameters are unchanged: after the generator phase the discriminator's
parameters are identical to before it and the flags are G trainable / D
frozen (though D was forward-evaluated once); after the discriminator phase
the generator's parameters are identical to those the generator phase left
and the flags are D trainable / G frozen. -/
theorem C3_phase_exclusivity (M : GanModel)
    (img img_clean fake_mark : ℚ) (s : StepState) :
    ((trainStep M img img_clean fake_mark s).2.1.state.dParams = s.dParams ∧
     (trainStep M img img_clean fake_mark s).2.1.state.gRequiresGrad = true ∧
     (trainStep M img img_clean fake_mark s).2.1.state.dRequiresGrad = false ∧
     (trainStep M img img_clean fake_mark s).2.1.dInputs.length = 1) ∧
    ((trainStep M img img_clean fake_mark s).1.gParams =
      (trainStep M img img_clean fake_mark s).2.1.state.gParams ∧
     (trainStep M img img_clean fake_mark s).1.dRequiresGrad = true ∧
     (trainStep M img img_clean fake_mark s).1.gRequiresGrad = false) := by
  exact ⟨⟨rfl, rfl, rfl, rfl⟩, rfl, rfl, rfl⟩

/-! ## Running-loss accumulators and the logging checkpoint —
src/train_GAN.py lines 94-144

`loss_sum_G, loss_sum_D = 0, 0` is executed once before the epoch loop
(line 94).  Each step accumulates both losses, and when
`step % log_step == 0` (line 138) a record with the epoch index, the step
index, `loss_sum_G / log_step`, `loss_sum_D / log_step` and the current
generator learning rate is emitted, after which both accumulators are set
back to zero (lines 143-144).  The per-step loss values themselves are
abstracted by a function of the epoch and step index, since the claims here
concern only the accumulator/logging control flow. -/

/-- One record written by `logger.info` at a logging checkpoint (line 139):
epoch index, step index, the two accumulator quotients and the learning
rate. -/
structure LogRecord where
  epoch : Nat
  step : Nat
  meanG : ℚ
  meanD : ℚ
  lr : ℚ
deriving DecidableEq, Repr

/-- Accumulator-and-log state threaded through the loop. -/
structure LoopState where
  loss_sum_G : ℚ
  loss_sum_D : ℚ
  logs : List LogRecord
deriving DecidableEq, Repr

/-- One iteration of the inner step loop as seen by the accumulators
(lines 117, 136, 138-144): add this step's generator and discriminator
losses, then, iff `step % log_step == 0`, append a log record holding the
accumulated sums divided by `log_step` and reset both accumulators. -/
def runStep (log_step : Nat) (lr : ℚ) (losses : Nat → Nat → ℚ × ℚ)
    (ep step : Nat) (s : LoopState) : LoopState :=
  let sumG := s.loss_sum_G + (losses ep step).1
  let sumD := s.loss_sum_D + (losses ep step).2
  if step % log_step = 0 then
    ⟨0, 0, s.logs ++
      [⟨ep, step, sumG / (log_step : ℚ), sumD / (log_step : ℚ), lr⟩]⟩
  else
    ⟨sumG, sumD, s.logs⟩

/-- One epoch of the inner step loop: steps `0, 1, ..., numSteps-1` in
order (line 96). -/
def runEpoch (log_step : Nat) (lr : ℚ) (losses : Nat → Nat → ℚ × ℚ)
    (ep numSteps : Nat) (s : LoopState) : LoopState :=
  (List.range numSteps).foldl (fun acc step => runStep log_step lr losses ep step acc) s

/-- The epoch loop of Trainer.train restricted to the accumulator/logging
state (lines 94-144): the accumulators start at zero once, before the first
epoch, and the state is threaded from each epoch into the next with no
reset at the boundary. -/
def runTraining (log_step : Nat) (lr : ℚ) (losses : Nat → Nat → ℚ × ℚ)
    (epochs numSteps : Nat) : LoopState :=
  match epochs with
  | 0 => ⟨0, 0, []⟩
  | e + 1 => runEpoch log_step lr losses e numSteps
      (runTraining log_step lr losses e numSteps)

/-- C6 counterexample: with window `L = 2` and one epoch of two steps whose
per-step losses are all `1`, a single log record is emitted — at step 0,
after only ONE step had accumulated — and the value it reports, `1/2`, is
not the mean loss over the steps it covers (which is `1`).  So a record is
not emitted every `L` steps, and its quotient does not cover exactly `L`
steps. -/
theorem C6_counterexample :
    (runTraining 2 0 (fun _ _ => (1, 1)) 1 2).logs =
      [⟨0, 0, 1/2, 1/2, 0⟩] ∧ (1 : ℚ)/2 ≠ 1 := by
  constructor
  · simp [runTraining, runEpoch, runStep, List.range_succ]
  · norm_num

/-- C6 (amended): a log record is emitted at every step whose index within
its epoch is a multiple of the configured window `L` (including step 0 of
each epoch, so a record's window may cover fewer or more than `L` steps);
the record contains the epoch index, the step index, the accumulated
generator-loss sum divided by `L`, the accumulated discriminator-loss sum
divided by `L`, and the current generator learning rate; immediately after
emitting, both running-loss accumulators are reset to zero. -/
theorem C6_logging_checkpoint (log_step : Nat) (lr : ℚ)
    (losses : Nat → Nat → ℚ × ℚ) (ep step : Nat) (s : LoopState)
    (h : step % log_step = 0) :
    runStep log_step lr losses ep step s =
      ⟨0, 0, s.logs ++
        [⟨ep, step, (s.loss_sum_G + (losses ep step).1) / (log_step : ℚ),
          (s.loss_sum_D + (losses ep step).2) / (log_step : ℚ), lr⟩]⟩ := by
  simp [runStep, h]

/-- Witness for C6 (amended) at `L = 2`, step 0, a nonzero incoming
accumulator state. -/
theorem C6_logging_checkpoint_witness :
    0 % 2 = 0 ∧
    runStep 2 (3 : ℚ) (fun _ _ => (5, 7)) 4 0 ⟨(1 : ℚ), (2 : ℚ), []⟩ =
      ⟨0, 0, ([] : List LogRecord) ++
        [⟨4, 0, ((1 : ℚ) + ((fun (_ _ : Nat) => ((5 : ℚ), (7 : ℚ))) 4 0).1) / ((2 : Nat) : ℚ),
          ((2 : ℚ) + ((fun (_ _ : Nat) => ((5 : ℚ), (7 : ℚ))) 4 0).2) / ((2 : Nat) : ℚ), 3⟩]⟩ :=
  ⟨rfl, C6_logging_checkpoint 2 3 (fun _ _ => (5, 7)) 4 0 ⟨1, 2, []⟩ rfl⟩

/-- C9: the two accumulators are initialized to zero once, before the epoch
loop; a step that is not a logging step only accumulates (no reset, no log
record); the epoch loop threads the accumulator state unchanged across the
epoch boundary (no reset there); and concretely, with `L = 3` and two
epochs of two steps with per-step losses `10*ep + step + 1`, the second log
record — emitted at step 0 of epoch 1 — reports `(2 + 11)/3`, a window mixing
the last step of epoch 0 (loss 2) with the first step of epoch 1 (loss 11). -/
theorem C9_accumulators_span_epochs (log_step : Nat) (lr : ℚ)
    (losses : Nat → Nat → ℚ × ℚ) (ep step numSteps E : Nat) (s : LoopState)
    (h : step % log_step ≠ 0) :
    runTraining log_step lr losses 0 numSteps = ⟨0, 0, []⟩ ∧
    runStep log_step lr losses ep step s =
      ⟨s.loss_sum_G + (losses ep step).1, s.loss_sum_D + (losses ep step).2,
        s.logs⟩ ∧
    runTraining log_step lr losses (E + 1) numSteps =
      runEpoch log_step lr losses E numSteps
        (runTraining log_step lr losses E numSteps) ∧
    (runTraining 3 0 (fun e st => (10*e + st + 1, 10*e + st + 1)) 2 2).logs =
      [⟨0, 0, 1/3, 1/3, 0⟩, ⟨1, 0, (2 + 11)/3, (2 + 11)/3, 0⟩] := by
  refine ⟨rfl, ?_, rfl, ?_⟩
  · simp [runStep, h]
  · simp [runTraining, runEpoch, runStep, List.range_succ]
    norm_num

/-- Witness for C9 at `L = 2`, step 1. -/
theorem C9_accumulators_span_epochs_witness :
    1 % 2 ≠ 0 ∧
    (runTraining 2 (9 : ℚ) (fun _ _ => (5, 7)) 0 3 = ⟨0, 0, []⟩ ∧
     runStep 2 (9 : ℚ) (fun _ _ => (5, 7)) 6 1 ⟨(1 : ℚ), (2 : ℚ), []⟩ =
       ⟨(1 : ℚ) + ((fun (_ _ : Nat) => ((5 : ℚ), (7 : ℚ))) 6 1).1,
         (2 : ℚ) + ((fun (_ _ : Nat) => ((5 : ℚ), (7 : ℚ))) 6 1).2,
         ([] : List LogRecord)⟩ ∧
     runTraining 2 (9 : ℚ) (fun _ _ => (5, 7)) (1 + 1) 3 =
       runEpoch 2 (9 : ℚ) (fun _ _ => (5, 7)) 1 3
         (runTraining 2 (9 : ℚ) (fun _ _ => (5, 7)) 1 3) ∧
     (runTraining 3 0 (fun e st => (10*e + st + 1, 10*e + st + 1)) 2 2).logs =
       [⟨0, 0, 1/3, 1/3, 0⟩, ⟨1, 0, (2 + 11)/3, (2 + 11)/3, 0⟩]) :=
  ⟨by decide, C9_accumulators_span_epochs 2 9 (fun _ _ => (5, 7)) 6 1 3 1
    ⟨1, 2, []⟩ (by decide)⟩

/-! ## Distributed evaluation — src/train_GAN.py, Trainer.test lines 149-166

Each process iterates its shard of the evaluation data, accumulating
`psnr += cal_psnr(pred, img_clean, mean, std).sum().item()`; `cal_psnr`
(in `utils`, outside src; per the spec it returns one PSNR scalar per
sample) is abstracted by letting a worker's shard be its list of
per-sample PSNR values, so the local accumulator is the sum of that list.
The collective `accelerator.reduce(psnr, reduction="sum")` is the spec's
Distributed Reducer contract: it sums the scalar across all worker
processes and returns the identical total to each.  Every process then
divides by `len(self.data_test)`, the total evaluation dataset size. -/

/-- One worker process of the evaluation pass, identified by the list of
per-sample PSNR values computed on its shard of the evaluation data. -/
structure EvalWorker where
  samples : List ℚ
deriving DecidableEq, Repr

/-- The local accumulator `psnr` at the end of a worker's loop (line 161):
the sum of its per-sample PSNR values. -/
def localPsnrSum (w : EvalWorker) : ℚ := w.samples.sum

/-- Modelled from the spec: the Distributed Reducer (the external
`accelerator.reduce(·, reduction="sum")` collective, line 164) sums the
local partial sums across all worker processes and hands every process the
same total. -/
def allReduceSum (ws : List EvalWorker) : ℚ := (ws.map localPsnrSum).sum

/-- The value each worker reports after Trainer.test (line 166): every
process divides the identical reduced total by the total dataset size
`len(self.data_test)` — one reported number per worker. -/
def reportedPsnr (ws : List EvalWorker) (totalSize : Nat) : List ℚ :=
  ws.map fun _ => allReduceSum ws / (totalSize : ℚ)

/-- C4: when the shards partition the evaluation dataset (local shard sizes
`k_i` summing to the total dataset size), every worker reports the same
number, namely `(Σ p_i) / (Σ k_i)` where `p_i` are the local PSNR sums —
the reduced global sum divided by the total dataset size, not the local
shard size. -/
theorem C4_distributed_mean_psnr (ws : List EvalWorker) (totalSize : Nat)
    (h : (ws.map fun w => w.samples.length).sum = totalSize) :
    reportedPsnr ws totalSize =
      List.replicate ws.length
        ((ws.map localPsnrSum).sum /
          (((ws.map fun w => w.samples.length).sum : Nat) : ℚ)) := by
  subst h
  simp only [reportedPsnr, allReduceSum]
  induction ws with
  | nil => rfl
  | cons w rest ih =>
      simp [List.replicate_succ] at ih ⊢

/-- Witness for C4 with two workers: shards `[31, 2]` and `[3]` (sizes 2
and 1, total 3); both workers report `(33 + 3) / 3`. -/
theorem C4_distributed_mean_psnr_witness :
    (([⟨[31, 2]⟩, ⟨[3]⟩] : List EvalWorker).map fun w => w.samples.length).sum = 3 ∧
    reportedPsnr [⟨[31, 2]⟩, ⟨[3]⟩] 3 =
      List.replicate ([⟨[31, 2]⟩, ⟨[3]⟩] : List EvalWorker).length
        ((([⟨[31, 2]⟩, ⟨[3]⟩] : List EvalWorker).map localPsnrSum).sum /
          ((((([⟨[31, 2]⟩, ⟨[3]⟩] : List EvalWorker).map
            fun w => w.samples.length).sum : Nat)) : ℚ)) :=
  ⟨rfl, C4_distributed_mean_psnr [⟨[31, 2]⟩, ⟨[3]⟩] 3 rfl⟩

/-! ## Epoch driver and checkpoint persistence — src/train_GAN.py lines 145-147

After each epoch's step loop and `self.test()`, only the local main process
runs `torch.save(self.net_G.state_dict(), f'output_GAN/ep_{ep}.pth')`: one
file per epoch, named by the epoch index, containing the generator's
parameters only. -/

/-- The persistent learned state of the trainer at the end of an epoch:
generator parameters, discriminator parameters, optimizer state. -/
structure TrainerNets where
  gParams : List ℚ
  dParams : List ℚ
  optState : List ℚ
deriving DecidableEq, Repr

/-- A checkpoint file artifact: its path and the parameters written to it. -/
structure CheckpointFile where
  name : String
  content : List ℚ
deriving DecidableEq, Repr

/-- The checkpoint write at the end of one epoch (lines 146-147): on the
designated local main process, write the single file
`output_GAN/ep_<ep>.pth` holding exactly the generator's parameters
(`net_G.state_dict()`); on every other process, do nothing. -/
def saveEpochCheckpoint (isLocalMain : Bool) (ep : Nat)
    (nets : TrainerNets) : List CheckpointFile :=
  if isLocalMain then
    [⟨"output_GAN/ep_" ++ toString ep ++ ".pth", nets.gParams⟩]
  else []

/-- All checkpoint files written by the epoch loop (line 95 and 145-147)
over `epochs` epochs, where `netsAt ep` is the trainer state when epoch
`ep` finishes: epochs run in order and each appends its own write. -/
def epochCheckpoints (isLocalMain : Bool) (netsAt : Nat → TrainerNets) :
    Nat → List CheckpointFile
  | 0 => []
  | e + 1 => epochCheckpoints isLocalMain netsAt e
      ++ saveEpochCheckpoint isLocalMain e (netsAt e)

/-- Helper: on the main process the run writes one checkpoint per epoch. -/
lemma epochCheckpoints_length_main (netsAt : Nat → TrainerNets) :
    ∀ epochs : Nat, (epochCheckpoints true netsAt epochs).length = epochs := by
  intro epochs
  induction epochs with
  | zero => rfl
  | succ e ih => simp [epochCheckpoints, saveEpochCheckpoint, ih]

/-- Helper: a non-main process never writes a checkpoint. -/
lemma epochCheckpoints_nonmain (netsAt : Nat → TrainerNets) :
    ∀ epochs : Nat, epochCheckpoints false netsAt epochs = [] := by
  intro epochs
  induction epochs with
  | zero => rfl
  | succ e ih => simp [epochCheckpoints, saveEpochCheckpoint, ih]

/-- C8: after each full training epoch, the main process writes exactly one
checkpoint file named `output_GAN/ep_<epoch_index>.pth` whose content is
exactly the generator's parameters; the write is independent of the
discriminator parameters and optimizer state (two trainer states sharing
generator parameters produce identical writes); every other process writes
nothing; and over a whole run the main process writes exactly one file per
epoch while any other process writes none. -/
theorem C8_checkpoint_per_epoch (netsAt : Nat → TrainerNets)
    (epochs ep : Nat) (nets nets2 : TrainerNets)
    (h : nets2.gParams = nets.gParams) :
    saveEpochCheckpoint true ep nets =
      [⟨"output_GAN/ep_" ++ toString ep ++ ".pth", nets.gParams⟩] ∧
    saveEpochCheckpoint false ep nets = [] ∧
    saveEpochCheckpoint true ep nets2 = saveEpochCheckpoint true ep nets ∧
    (epochCheckpoints true netsAt epochs).length = epochs ∧
    epochCheckpoints false netsAt epochs = [] := by
  refine ⟨rfl, rfl, ?_, epochCheckpoints_length_main netsAt epochs,
    epochCheckpoints_nonmain netsAt epochs⟩
  simp [saveEpochCheckpoint, h]

/-- Witness for C8: three epochs, a second trainer state differing in
discriminator parameters and optimizer state but sharing the generator
parameters. -/
theorem C8_checkpoint_per_epoch_witness :
    (⟨[1], [5], [6]⟩ : TrainerNets).gParams = (⟨[1], [2], [3]⟩ : TrainerNets).gParams ∧
    (saveEpochCheckpoint true 0 ⟨[1], [2], [3]⟩ =
      [⟨"output_GAN/ep_" ++ toString (0 : Nat) ++ ".pth",
        (⟨[1], [2], [3]⟩ : TrainerNets).gParams⟩] ∧
     saveEpochCheckpoint false 0 ⟨[1], [2], [3]⟩ = [] ∧
     saveEpochCheckpoint true 0 ⟨[1], [5], [6]⟩ =
       saveEpochCheckpoint true 0 ⟨[1], [2], [3]⟩ ∧
     (epochCheckpoints true (fun _ => ⟨[1], [2], [3]⟩) 3).length = 3 ∧
     epochCheckpoints false (fun _ => ⟨[1], [2], [3]⟩) 3 = []) :=
  ⟨rfl, C8_checkpoint_per_epoch (fun _ => ⟨[1], [2], [3]⟩) 3 0
    ⟨[1], [2], [3]⟩ ⟨[1], [5], [6]⟩ rfl⟩

end SampleWatermarkEraser
